import Mathlib

/-!
Verification of the graph-db-eval FastAPI server (`src/server.py`).

The module is shallowly embedded: the two request handlers
(`run_kuzu_cypher_query`, `run_mg_cypher_query`), their result-building
helpers (`get_kuzu_data`, `get_mg_data`), and the module-level database
lifecycle (`db = Database()` / `lifespan`) become pure Lean functions.
Calls into external libraries (kuzu, neo4j, pandas, codetiming, os.getenv)
are modelled as explicit inputs: each handler takes an environment record
holding the outcome every library call would produce on this request
(success value or the raised exception's string), and returns the HTTP
response together with the list of log calls and resource events the
Python code would perform.
-/

namespace GraphDbEval

/-- Pair of status code and body returned through `PlainTextResponse`. -/
structure ResponseEnvelope where
  statusCode : Nat
  body : String
deriving DecidableEq

/-- One call to the module logger: `logger.info` or `logger.exception`. -/
inductive LogEvent where
  | info (msg : String)
  | exc (msg : String)
deriving DecidableEq

/-- Pair of uri and auth passed to `GraphDatabase.driver` (lines 144-148):
uri is the f-string `bolt://{host}:{port}`, auth the literal `("", "")`. -/
structure ConnectionSpec where
  uri : String
  auth : String × String
deriving DecidableEq

/-- Resource events of one remote-backend request: driver acquisition by the
`with GraphDatabase.driver(...)` statement, the `verify_connectivity` call,
the `execute_query` call, and the driver release performed by the `with`
statement's exit. -/
inductive MgEvent where
  | acquire (spec : ConnectionSpec)
  | verifyConn
  | execQuery (q : String)
  | release
deriving DecidableEq

/-- Kinds of operation a request performs, used to model which of them the
`codetiming` timer's `with t:` block covers. -/
inductive StepKind where
  | connect
  | verifyConn
  | execQuery
  | extractResult
  | formatResult
deriving DecidableEq

/-- One operation on the request path: its kind, whether it happens inside
the `with t:` block, and its wall-clock duration in seconds. -/
structure Step where
  kind : StepKind
  timed : Bool
  dur : ℚ
deriving DecidableEq

/-- Value `t.last` of a `codetiming.Timer`: the duration measured by the
last `with t:` block, i.e. the total time of the steps inside that block. -/
def timerLast (steps : List Step) : ℚ :=
  (steps.filter (fun s => s.timed)).foldr (fun s acc => s.dur + acc) 0

/-- Python `round(x, 4)` rounds half to even at the fourth decimal. -/
def roundHalfEven (q : ℚ) : ℤ :=
  if q - ⌊q⌋ = 1/2 then (if 2 ∣ ⌊q⌋ then ⌊q⌋ else ⌊q⌋ + 1) else round q

/-- Model of `round(t.last, 4)` (lines 127 and 189). -/
def pyRound4 (q : ℚ) : ℚ := (roundHalfEven (q * 10000) : ℚ) / 10000

/-- Trailing `'0'` characters removed, for Python's shortest float display. -/
def stripTrailingZeros (s : String) : String :=
  String.mk ((s.toList.reverse.dropWhile (fun c => c = '0')).reverse)

/-- Fractional digits of a ten-thousandths count `m < 10000`, zero-padded
to four places and with trailing zeros stripped. -/
def frac4 (m : ℕ) : String :=
  stripTrailingZeros ((toString (m + 10000)).drop 1)

/-- Model of Python `str(...)` applied to the value of `round(t.last, 4)`:
the decimal rendering of a rational with at most four fractional digits,
trailing zeros removed and a `".0"` kept when the fraction vanishes
(Python shows `str(round(0.0, 4)) == "0.0"`, `str(round(0.1234, 4)) ==
"0.1234"`). -/
def pyRepr (q : ℚ) : String :=
  let n : ℤ := ⌊q * 10000⌋
  let sign := if n < 0 then "-" else ""
  let m := n.natAbs
  let fs := frac4 (m % 10000)
  sign ++ toString (m / 10000) ++ "." ++ (if fs = "" then "0" else fs)

/-- Error-body prefix of the two `except` branches (lines 93 and 156):
`f'Exception: Request failure. {str(e)}'`. -/
def failureTag : String := "Exception: Request failure."

/-- Full error body for an exception whose `str` is `e`. -/
def mkFailureBody (e : String) : String := failureTag ++ " " ++ e

/-! ### Database lifecycle (module globals and `lifespan`, lines 29-58) -/

/-- Value of the module-level variable `db` at any moment:
`placeholder` is the `Database()` instance assigned at import (line 30),
`openedAt path` the `kuzu.Database(db_path)` assigned at startup (line 48),
`released` the `None` assigned at shutdown (line 58). -/
inductive DBVal where
  | placeholder
  | openedAt (path : String)
  | released
deriving DecidableEq

/-- Module import, line 30: `db: kuzu.database.Database = Database()`.
The initial value is a live placeholder `Database` instance, not `None`. -/
def dbInit : DBVal := DBVal.placeholder

/-- Startup half of `lifespan` (lines 43-50): reads
`os.getenv('KUZU_DB_PATH', os.path.dirname(__file__))` and assigns
`db = kuzu.Database(db_path)`, whatever `db` held before. -/
def lifespanStartup (kuzuDbPathEnv : Option String) (dirnameFile : String)
    (_s : DBVal) : DBVal :=
  DBVal.openedAt (kuzuDbPathEnv.getD dirnameFile)

/-- Shutdown half of `lifespan` (line 58): `db = None`, whatever `db` held. -/
def lifespanShutdown (_s : DBVal) : DBVal := DBVal.released

/-- Successive values of `db` over one service lifetime: import, then
startup, then shutdown. -/
def lifecycleTrace (kuzuDbPathEnv : Option String) (dirnameFile : String) :
    List DBVal :=
  [dbInit,
   lifespanStartup kuzuDbPathEnv dirnameFile dbInit,
   lifespanShutdown (lifespanStartup kuzuDbPathEnv dirnameFile dbInit)]

/-! ### Embedded (kuzu) endpoint, lines 67-127 -/

/-- Durations of the operations of one embedded request, in seconds. -/
structure KuzuDur where
  connect : ℚ
  exec : ℚ
  extract : ℚ
  format : ℚ
deriving DecidableEq

/-- Operations of one embedded request in source order, flagged by
whether they sit inside the `with t:` block of `get_kuzu_data`
(lines 118-121): only `await conn.execute(query)` does; the
`kuzu.AsyncConnection(db)` call, the `response.get_as_df()` extraction and
the string assembly are outside it. -/
def kuzu_steps (d : KuzuDur) : List Step :=
  [⟨StepKind.connect, false, d.connect⟩,
   ⟨StepKind.execQuery, true, d.exec⟩,
   ⟨StepKind.extractResult, false, d.extract⟩,
   ⟨StepKind.formatResult, false, d.format⟩]

/-- Outcomes of the library calls one embedded request makes. `connect` is
`kuzu.AsyncConnection(db)` when `db` is a live handle; `exec` is
`await conn.execute(query)`; `table` is `response.get_as_df().to_string()`,
the rendered table on success. An `.error e` holds `str(e)` of the raised
exception. `dur` gives the wall-clock durations of the request's steps. -/
structure KuzuEnv where
  connect : Except String Unit
  exec : Except String Unit
  table : Except String String
  dur : KuzuDur

/-- Model of `kuzu.AsyncConnection(db)` (line 84): constructing a connection
over `db = None` (after shutdown) raises; over a live handle the outcome is
the library's. -/
def kuzuConnect (s : DBVal) (c : Except String Unit) : Except String Unit :=
  match s with
  | DBVal.released => Except.error "Database is closed"
  | _ => c

/-- Model of `get_kuzu_data` (lines 105-127): logs the query, times
`await conn.execute(query)` with the `codetiming` timer, extracts the
dataframe, and builds
`"Elapsed time: " + str(round(t.last, 4)) + "s" + result.to_string()`.
Returns the built string or the propagated exception, together with the
log calls made. -/
def get_kuzu_data (env : KuzuEnv) (query : String) :
    Except String String × List LogEvent :=
  let qlog := LogEvent.info ("\nQuery: " ++ query)
  match env.exec with
  | Except.error e => (Except.error e, [qlog])
  | Except.ok _ =>
    match env.table with
    | Except.error e => (Except.error e, [qlog])
    | Except.ok tbl =>
      (Except.ok ("Elapsed time: "
          ++ pyRepr (pyRound4 (timerLast (kuzu_steps env.dur))) ++ "s" ++ tbl),
       [qlog])

/-- Result of the embedded handler: the response plus the log calls made. -/
structure KuzuOutcome where
  resp : ResponseEnvelope
  logs : List LogEvent
deriving DecidableEq

/-- Model of `run_kuzu_cypher_query` (lines 67-102): builds an
`AsyncConnection` over the global `db`, calls `get_kuzu_data`, logs the
result; any exception is caught, logged via `logger.exception`, and turned
into status 500 with body `f'Exception: Request failure. {str(e)}'`. -/
def run_kuzu_cypher_query (s : DBVal) (env : KuzuEnv) (query : String) :
    KuzuOutcome :=
  match kuzuConnect s env.connect with
  | Except.error e =>
    ⟨⟨500, mkFailureBody e⟩, [LogEvent.exc failureTag]⟩
  | Except.ok _ =>
    match get_kuzu_data env query with
    | (Except.error e, logs) =>
      ⟨⟨500, mkFailureBody e⟩, logs ++ [LogEvent.exc failureTag]⟩
    | (Except.ok v, logs) =>
      ⟨⟨200, v⟩, logs ++ [LogEvent.info ("Result: " ++ v)]⟩

/-! ### Remote (Memgraph) endpoint, lines 130-189 -/

/-- Durations of the operations of one remote request, in seconds. -/
structure MgDur where
  connect : ℚ
  verify : ℚ
  exec : ℚ
  extract : ℚ
  format : ℚ
deriving DecidableEq

/-- Operations of one remote request in source order, flagged by whether
they sit inside the `with t:` block of `get_mg_data` (lines 181-183): only
`client.execute_query(query)` does; driver acquisition,
`verify_connectivity`, the `pd.DataFrame.from_records` extraction and the
string assembly are outside it. -/
def mg_steps (d : MgDur) : List Step :=
  [⟨StepKind.connect, false, d.connect⟩,
   ⟨StepKind.verifyConn, false, d.verify⟩,
   ⟨StepKind.execQuery, true, d.exec⟩,
   ⟨StepKind.extractResult, false, d.extract⟩,
   ⟨StepKind.formatResult, false, d.format⟩]

/-- Inputs of one remote request. `hostEnv` and `portEnv` are the values of
`os.getenv('MEMGRAPH_DB_HOST')` and `os.getenv('MEMGRAPH_DB_PORT')` at the
moment the request runs (the handler reads them itself, lines 144-145).
`driverAcquire` is `GraphDatabase.driver(...)` with the `with` entry,
`verify` is `client.verify_connectivity()`, `exec` is
`client.execute_query(query)`; `table` is
`pd.DataFrame.from_records(records, columns=keys).to_string()` on success.
`dur` gives the wall-clock durations of the request's steps. -/
structure MgEnv where
  hostEnv : Option String
  portEnv : Option String
  driverAcquire : Except String Unit
  verify : Except String Unit
  exec : Except String Unit
  table : Except String String
  dur : MgDur

/-- Line 144: `host_name = f"bolt://{os.getenv('MEMGRAPH_DB_HOST',
'localhost')}:{os.getenv('MEMGRAPH_DB_PORT', '7687')}"`. -/
def mg_host_name (hostEnv portEnv : Option String) : String :=
  "bolt://" ++ hostEnv.getD "localhost" ++ ":" ++ portEnv.getD "7687"

/-- Lines 144-148: the uri and the literal `auth = ("", "")` handed to
`GraphDatabase.driver`. -/
def mg_connection_spec (hostEnv portEnv : Option String) : ConnectionSpec :=
  ⟨mg_host_name hostEnv portEnv, ("", "")⟩

/-- Model of `get_mg_data` (lines 168-189): logs the query, times
`client.execute_query(query)`, builds the dataframe from the records and
keys, and returns
`"Elapsed time: " + str(round(t.last, 4)) + "s\n" + result.to_string()`.
Returns the built string or the propagated exception, plus log calls. -/
def get_mg_data (env : MgEnv) (query : String) :
    Except String String × List LogEvent :=
  let qlog := LogEvent.info ("\nMemGraph query: " ++ query)
  match env.exec with
  | Except.error e => (Except.error e, [qlog])
  | Except.ok _ =>
    match env.table with
    | Except.error e => (Except.error e, [qlog])
    | Except.ok tbl =>
      (Except.ok ("Elapsed time: "
          ++ pyRepr (pyRound4 (timerLast (mg_steps env.dur))) ++ "s\n" ++ tbl),
       [qlog])

/-- Result of the remote handler: response, log calls, resource events. -/
structure MgOutcome where
  resp : ResponseEnvelope
  logs : List LogEvent
  events : List MgEvent
deriving DecidableEq

/-- Model of `run_mg_cypher_query` (lines 130-165): computes the endpoint
from the current environment, opens a scoped driver with
`with GraphDatabase.driver(host_name, auth=auth) as client:` (released
whenever the block exits), verifies connectivity, calls `get_mg_data`; any
exception is caught, logged, and turned into status 500 with the prefixed
body. When the driver constructor itself raises, the `with` body never runs
and there is nothing to release, so the event list is empty. -/
def run_mg_cypher_query (env : MgEnv) (query : String) : MgOutcome :=
  let spec := mg_connection_spec env.hostEnv env.portEnv
  match env.driverAcquire with
  | Except.error e =>
    ⟨⟨500, mkFailureBody e⟩, [LogEvent.exc failureTag], []⟩
  | Except.ok _ =>
    match env.verify with
    | Except.error e =>
      ⟨⟨500, mkFailureBody e⟩, [LogEvent.exc failureTag],
       [MgEvent.acquire spec, MgEvent.verifyConn, MgEvent.release]⟩
    | Except.ok _ =>
      match get_mg_data env query with
      | (Except.error e, logs) =>
        ⟨⟨500, mkFailureBody e⟩, logs ++ [LogEvent.exc failureTag],
         [MgEvent.acquire spec, MgEvent.verifyConn, MgEvent.execQuery query,
          MgEvent.release]⟩
      | (Except.ok v, logs) =>
        ⟨⟨200, v⟩, logs,
         [MgEvent.acquire spec, MgEvent.verifyConn, MgEvent.execQuery query,
          MgEvent.release]⟩

/-! ### Derived predicates and sample inputs -/

/-- Whether the embedded handler's `try` block raises: connection
construction, query execution, or result extraction fails. -/
def kuzuFails (s : DBVal) (env : KuzuEnv) : Bool :=
  match kuzuConnect s env.connect with
  | Except.error _ => true
  | Except.ok _ =>
    match env.exec with
    | Except.error _ => true
    | Except.ok _ =>
      match env.table with
      | Except.error _ => true
      | Except.ok _ => false

/-- Whether the remote handler's `try` block raises: driver construction,
connectivity verification, query execution, or result extraction fails. -/
def mgFails (env : MgEnv) : Bool :=
  match env.driverAcquire with
  | Except.error _ => true
  | Except.ok _ =>
    match env.verify with
    | Except.error _ => true
    | Except.ok _ =>
      match env.exec with
      | Except.error _ => true
      | Except.ok _ =>
        match env.table with
        | Except.error _ => true
        | Except.ok _ => false

/-- Description (`str(e)`) of the first exception the embedded handler's
`try` block raises, if any: the connection construction, the query
execution, or the result extraction, in source order. -/
def kuzuFailureMsg (s : DBVal) (env : KuzuEnv) : Option String :=
  match kuzuConnect s env.connect with
  | Except.error e => some e
  | Except.ok _ =>
    match env.exec with
    | Except.error e => some e
    | Except.ok _ =>
      match env.table with
      | Except.error e => some e
      | Except.ok _ => none

/-- Description (`str(e)`) of the first exception the remote handler's
`try` block raises, if any: the driver construction, the connectivity
verification, the query execution, or the result extraction, in source
order. -/
def mgFailureMsg (env : MgEnv) : Option String :=
  match env.driverAcquire with
  | Except.error e => some e
  | Except.ok _ =>
    match env.verify with
    | Except.error e => some e
    | Except.ok _ =>
      match env.exec with
      | Except.error e => some e
      | Except.ok _ =>
        match env.table with
        | Except.error e => some e
        | Except.ok _ => none

/-- Whether a resource event is a driver acquisition. -/
def isAcquire : MgEvent → Bool :=
  fun e => match e with | MgEvent.acquire _ => true | _ => false

/-- Whether a resource event is a driver release. -/
def isRelease : MgEvent → Bool :=
  fun e => match e with | MgEvent.release => true | _ => false

/-- Concrete durations for a sample embedded request. -/
def durK0 : KuzuDur := ⟨1/100, 2/10, 3/100, 1/1000⟩

/-- Sample embedded request on which every library call succeeds. -/
def envKOk : KuzuEnv := ⟨Except.ok (), Except.ok (), Except.ok "X", durK0⟩

/-- Sample embedded request whose `conn.execute` raises. -/
def envKFail : KuzuEnv :=
  ⟨Except.ok (), Except.error "Parser exception", Except.ok "X", durK0⟩

/-- Concrete durations for a sample remote request. -/
def durM0 : MgDur := ⟨1/100, 1/100, 2/10, 3/100, 1/1000⟩

/-- Sample remote request on which every library call succeeds. -/
def envMOk : MgEnv :=
  ⟨some "localhost", some "7687", Except.ok (), Except.ok (), Except.ok (),
   Except.ok "Y", durM0⟩

/-- Sample remote request whose `execute_query` raises. -/
def envMFail : MgEnv :=
  ⟨some "localhost", some "7687", Except.ok (), Except.ok (),
   Except.error "Parser exception", Except.ok "Y", durM0⟩

/-- Sample remote request after the host configuration changed to
`otherhost` (the startup-time value being the default `localhost`). -/
def envMOther : MgEnv :=
  ⟨some "otherhost", some "7687", Except.ok (), Except.ok (), Except.ok (),
   Except.ok "Y", durM0⟩

/-! ### Helper lemmas -/

/-- Value `t.last` of the embedded request's timer is the `conn.execute`
duration alone. -/
lemma timerLast_kuzu (d : KuzuDur) : timerLast (kuzu_steps d) = d.exec := by
  simp [timerLast, kuzu_steps]

/-- Value `t.last` of the remote request's timer is the `execute_query`
duration alone. -/
lemma timerLast_mg (d : MgDur) : timerLast (mg_steps d) = d.exec := by
  simp [timerLast, mg_steps]

/-- Rounding half to even preserves nonnegativity. -/
lemma roundHalfEven_nonneg {q : ℚ} (h : 0 ≤ q) : 0 ≤ roundHalfEven q := by
  unfold roundHalfEven
  split_ifs with h1 h2
  · exact Int.floor_nonneg.mpr h
  · have := Int.floor_nonneg.mpr h
    omega
  · rw [round_eq]
    exact Int.floor_nonneg.mpr (by linarith)

/-- Applying `round(x, 4)` to a nonnegative value yields `n / 10000` for a
natural `n`: a nonnegative number with at most four decimal places. -/
lemma pyRound4_eq_natCast_div {q : ℚ} (h : 0 ≤ q) :
    ∃ n : ℕ, pyRound4 q = (n : ℚ) / 10000 := by
  refine ⟨(roundHalfEven (q * 10000)).toNat, ?_⟩
  unfold pyRound4
  congr 1
  exact_mod_cast (Int.toNat_of_nonneg (roundHalfEven_nonneg (by positivity))).symm

/-- String concatenation is left-cancellative. -/
lemma string_append_left_cancel {a b c : String} (h : a ++ b = a ++ c) :
    b = c := by
  have hd := congrArg String.data h
  simp only [String.data_append] at hd
  exact String.ext (List.append_cancel_left hd)

/-- Generic rearrangement of the remote body's tail. -/
lemma append_s_newline (a b : String) :
    a ++ "s\n" ++ b = a ++ "s" ++ "\n" ++ b := by
  rw [String.append_assoc a "s" "\n"]
  rfl

/-! ### Claims -/

/-- Claim C1: for every request to either endpoint the returned status code
is 200 exactly when no library call in the `try` block raises and 500
otherwise; whenever a failure with description `e` is raised during
dispatch or execution, the returned body is exactly the stable prefix
`"Exception: Request failure."` followed by a space and `e` (that is,
`mkFailureBody e`); the handlers are total functions into
`ResponseEnvelope`, so no exception propagates past the gateway. -/
theorem gateway_failure_boundary (s : DBVal) (envK : KuzuEnv) (envM : MgEnv)
    (q : String) :
    ((run_kuzu_cypher_query s envK q).resp.statusCode
        = if kuzuFails s envK then 500 else 200)
    ∧ (∀ e, kuzuFailureMsg s envK = some e →
        (run_kuzu_cypher_query s envK q).resp.body = mkFailureBody e)
    ∧ ((run_mg_cypher_query envM q).resp.statusCode
        = if mgFails envM then 500 else 200)
    ∧ (∀ e, mgFailureMsg envM = some e →
        (run_mg_cypher_query envM q).resp.body = mkFailureBody e)
    ∧ (∀ e : String, mkFailureBody e = failureTag ++ (" " ++ e)) := by
  obtain ⟨kc, ke, kt, kd⟩ := envK
  obtain ⟨mh, mp, md, mv, me, mt, mdur⟩ := envM
  refine ⟨?_, ?_, ?_, ?_, ?_⟩
  · cases s <;> cases kc <;> cases ke <;> cases kt <;>
      simp [run_kuzu_cypher_query, get_kuzu_data, kuzuConnect, kuzuFails]
  · cases s <;> cases kc <;> cases ke <;> cases kt <;>
      simp [run_kuzu_cypher_query, get_kuzu_data, kuzuConnect, kuzuFailureMsg]
  · cases md <;> cases mv <;> cases me <;> cases mt <;>
      simp [run_mg_cypher_query, get_mg_data, mgFails]
  · cases md <;> cases mv <;> cases me <;> cases mt <;>
      simp [run_mg_cypher_query, get_mg_data, mgFailureMsg]
  · intro e
    rw [mkFailureBody, String.append_assoc]

/-- Witness for C1: the failure-body conclusions at concrete failing
requests, with the underlying descriptions spelled out. -/
theorem gateway_failure_boundary_witness :
    (run_kuzu_cypher_query DBVal.released envKOk "RETURN 1").resp.body
        = mkFailureBody "Database is closed"
    ∧ (run_mg_cypher_query envMFail "RETURN 1").resp.body
        = mkFailureBody "Parser exception" :=
  ⟨(gateway_failure_boundary DBVal.released envKOk envMFail "RETURN 1").2.1
      "Database is closed" rfl,
   (gateway_failure_boundary DBVal.released envKOk envMFail "RETURN 1").2.2.2.1
      "Parser exception" rfl⟩

/-- Claim C2: when the chosen backend accepts the query (and, for the
embedded backend, the handle is live), the endpoint returns status 200 and
a body that begins with `"Elapsed time: "` followed by the rendering of a
nonnegative number with at most four decimal places, namely
`round(t.last, 4)`. -/
theorem accepted_query_returns_200_elapsed
    (s : DBVal) (envK : KuzuEnv) (envM : MgEnv) (q : String)
    (tblK tblM : String)
    (hs : s ≠ DBVal.released)
    (hkc : envK.connect = Except.ok ())
    (hke : envK.exec = Except.ok ())
    (hkt : envK.table = Except.ok tblK)
    (hkd : 0 ≤ envK.dur.exec)
    (hmd : envM.driverAcquire = Except.ok ())
    (hmv : envM.verify = Except.ok ())
    (hme : envM.exec = Except.ok ())
    (hmt : envM.table = Except.ok tblM)
    (hmdur : 0 ≤ envM.dur.exec) :
    ((run_kuzu_cypher_query s envK q).resp.statusCode = 200
      ∧ ∃ n : ℕ, pyRound4 (timerLast (kuzu_steps envK.dur)) = (n : ℚ) / 10000
        ∧ ∃ r, (run_kuzu_cypher_query s envK q).resp.body
            = "Elapsed time: " ++ pyRepr ((n : ℚ) / 10000) ++ r)
    ∧ ((run_mg_cypher_query envM q).resp.statusCode = 200
      ∧ ∃ n : ℕ, pyRound4 (timerLast (mg_steps envM.dur)) = (n : ℚ) / 10000
        ∧ ∃ r, (run_mg_cypher_query envM q).resp.body
            = "Elapsed time: " ++ pyRepr ((n : ℚ) / 10000) ++ r) := by
  obtain ⟨kc, ke, kt, kd⟩ := envK
  obtain ⟨mh, mp, mdr, mv, me, mt, mdu⟩ := envM
  simp only at hkc hke hkt hkd hmd hmv hme hmt hmdur
  subst hkc hke hkt hmd hmv hme hmt
  obtain ⟨n, hn⟩ := pyRound4_eq_natCast_div
    (q := timerLast (kuzu_steps kd)) (by rw [timerLast_kuzu]; exact hkd)
  obtain ⟨m, hm⟩ := pyRound4_eq_natCast_div
    (q := timerLast (mg_steps mdu)) (by rw [timerLast_mg]; exact hmdur)
  refine ⟨⟨?_, n, hn, "s" ++ tblK, ?_⟩, ?_, m, hm, "s\n" ++ tblM, ?_⟩
  · cases s
    · simp [run_kuzu_cypher_query, get_kuzu_data, kuzuConnect]
    · simp [run_kuzu_cypher_query, get_kuzu_data, kuzuConnect]
    · exact absurd rfl hs
  · cases s
    · simp [run_kuzu_cypher_query, get_kuzu_data, kuzuConnect, hn,
        String.append_assoc]
    · simp [run_kuzu_cypher_query, get_kuzu_data, kuzuConnect, hn,
        String.append_assoc]
    · exact absurd rfl hs
  · simp [run_mg_cypher_query, get_mg_data]
  · simp [run_mg_cypher_query, get_mg_data, hm, String.append_assoc]

/-- Witness for C2: the conclusion at concrete all-successful requests. -/
theorem accepted_query_returns_200_elapsed_witness :
    ((run_kuzu_cypher_query (DBVal.openedAt "p") envKOk
          "RETURN 1").resp.statusCode = 200
      ∧ ∃ n : ℕ, pyRound4 (timerLast (kuzu_steps envKOk.dur)) = (n : ℚ) / 10000
        ∧ ∃ r, (run_kuzu_cypher_query (DBVal.openedAt "p") envKOk
              "RETURN 1").resp.body
            = "Elapsed time: " ++ pyRepr ((n : ℚ) / 10000) ++ r)
    ∧ ((run_mg_cypher_query envMOk "RETURN 1").resp.statusCode = 200
      ∧ ∃ n : ℕ, pyRound4 (timerLast (mg_steps envMOk.dur)) = (n : ℚ) / 10000
        ∧ ∃ r, (run_mg_cypher_query envMOk "RETURN 1").resp.body
            = "Elapsed time: " ++ pyRepr ((n : ℚ) / 10000) ++ r) :=
  accepted_query_returns_200_elapsed (DBVal.openedAt "p") envKOk envMOk
    "RETURN 1" "X" "Y" (by decide) rfl rfl rfl (by norm_num [envKOk, durK0])
    rfl rfl rfl rfl (by norm_num [envMOk, durM0])

/-- Counterexample to C3: on a successful embedded request the body is the
elapsed-time header followed immediately by the rendered table, with no
newline between them; the body the claim mandates, which inserts a newline
after the header, is a different string. -/
theorem kuzu_body_lacks_newline :
    (run_kuzu_cypher_query (DBVal.openedAt "p") envKOk "RETURN 1").resp.body
      = "Elapsed time: "
          ++ pyRepr (pyRound4 (timerLast (kuzu_steps envKOk.dur))) ++ "s" ++ "X"
    ∧ (run_kuzu_cypher_query (DBVal.openedAt "p") envKOk "RETURN 1").resp.body
      ≠ "Elapsed time: "
          ++ pyRepr (pyRound4 (timerLast (kuzu_steps envKOk.dur))) ++ "s" ++ "\n"
          ++ "X" := by
  have h1 : (run_kuzu_cypher_query (DBVal.openedAt "p") envKOk
        "RETURN 1").resp.body
      = "Elapsed time: "
          ++ pyRepr (pyRound4 (timerLast (kuzu_steps envKOk.dur))) ++ "s"
          ++ "X" := by
    simp [run_kuzu_cypher_query, get_kuzu_data, kuzuConnect, envKOk]
  refine ⟨h1, ?_⟩
  intro h2
  rw [h1] at h2
  simp only [String.append_assoc] at h2
  have h3 := string_append_left_cancel
    (string_append_left_cancel (string_append_left_cancel h2))
  exact absurd h3 (by decide)

/-- Claim C3 as amended: on every successful query the body is the header
`"Elapsed time: {rounded seconds}s"` followed by the rendered table, with a
newline between header and table on the remote endpoint but none on the
embedded endpoint. -/
theorem formatted_body_shape
    (s : DBVal) (envK : KuzuEnv) (envM : MgEnv) (q : String)
    (tblK tblM : String)
    (hs : s ≠ DBVal.released)
    (hkc : envK.connect = Except.ok ())
    (hke : envK.exec = Except.ok ())
    (hkt : envK.table = Except.ok tblK)
    (hmd : envM.driverAcquire = Except.ok ())
    (hmv : envM.verify = Except.ok ())
    (hme : envM.exec = Except.ok ())
    (hmt : envM.table = Except.ok tblM) :
    (run_kuzu_cypher_query s envK q).resp.body
      = "Elapsed time: "
          ++ pyRepr (pyRound4 (timerLast (kuzu_steps envK.dur))) ++ "s" ++ tblK
    ∧ (run_mg_cypher_query envM q).resp.body
      = "Elapsed time: "
          ++ pyRepr (pyRound4 (timerLast (mg_steps envM.dur))) ++ "s" ++ "\n"
          ++ tblM := by
  obtain ⟨kc, ke, kt, kd⟩ := envK
  obtain ⟨mh, mp, mdr, mv, me, mt, mdu⟩ := envM
  simp only at hkc hke hkt hmd hmv hme hmt
  subst hkc hke hkt hmd hmv hme hmt
  constructor
  · cases s
    · simp [run_kuzu_cypher_query, get_kuzu_data, kuzuConnect]
    · simp [run_kuzu_cypher_query, get_kuzu_data, kuzuConnect]
    · exact absurd rfl hs
  · rw [← append_s_newline]
    simp [run_mg_cypher_query, get_mg_data]

/-- Witness for the amended C3: the conclusion at concrete all-successful
requests. -/
theorem formatted_body_shape_witness :
    (run_kuzu_cypher_query (DBVal.openedAt "p") envKOk "RETURN 1").resp.body
      = "Elapsed time: "
          ++ pyRepr (pyRound4 (timerLast (kuzu_steps envKOk.dur))) ++ "s" ++ "X"
    ∧ (run_mg_cypher_query envMOk "RETURN 1").resp.body
      = "Elapsed time: "
          ++ pyRepr (pyRound4 (timerLast (mg_steps envMOk.dur))) ++ "s" ++ "\n"
          ++ "Y" :=
  formatted_body_shape (DBVal.openedAt "p") envKOk envMOk "RETURN 1" "X" "Y"
    (by decide) rfl rfl rfl rfl rfl rfl rfl

/-- Counterexample to C4: before service startup the handle is the live
placeholder `Database()` instance assigned at module import, not the
absent value (`None`) the claim takes as the initial state. -/
theorem db_initial_not_absent :
    dbInit = DBVal.placeholder ∧ dbInit ≠ DBVal.released := by decide

/-- Claim C4 as amended: the handle passes through three states, not two:
it starts as a live placeholder database created at module import, startup
replaces it (whatever it holds) with the database opened at the configured
path, and shutdown replaces it with the absent value `None`; the service
lifetime realizes exactly this three-state trace. -/
theorem lifecycle_three_states
    (kuzuDbPathEnv : Option String) (dirnameFile : String) :
    lifecycleTrace kuzuDbPathEnv dirnameFile
      = [DBVal.placeholder,
         DBVal.openedAt (kuzuDbPathEnv.getD dirnameFile),
         DBVal.released] := by
  simp [lifecycleTrace, dbInit, lifespanStartup, lifespanShutdown]

/-- Claim C5: on both endpoints the timer's `with t:` block covers exactly
the backend execution call, so the recorded elapsed seconds equal that
call's duration; connection setup, connectivity verification, result
extraction and formatting all lie outside the timed region. -/
theorem timed_region_covers_only_execution (dk : KuzuDur) (dm : MgDur) :
    timerLast (kuzu_steps dk) = dk.exec
    ∧ timerLast (mg_steps dm) = dm.exec
    ∧ (kuzu_steps dk).filter (fun st => st.timed)
        = [⟨StepKind.execQuery, true, dk.exec⟩]
    ∧ (mg_steps dm).filter (fun st => st.timed)
        = [⟨StepKind.execQuery, true, dm.exec⟩] := by
  refine ⟨timerLast_kuzu dk, timerLast_mg dm, ?_, ?_⟩ <;>
    simp [kuzu_steps, mg_steps]

/-- Claim C6: when the handle has been released at shutdown, every embedded
request returns status 500 through the uniform prefixed error envelope (the
handler is a total function, so it neither hangs nor crashes), and a later
request against a live handle is still served with status 200. -/
theorem released_handle_returns_500
    (envK : KuzuEnv) (q : String) (p : String) (envK2 : KuzuEnv) (q2 : String)
    (tbl : String)
    (h1 : envK2.connect = Except.ok ())
    (h2 : envK2.exec = Except.ok ())
    (h3 : envK2.table = Except.ok tbl) :
    ((run_kuzu_cypher_query DBVal.released envK q).resp.statusCode = 500
      ∧ ∃ r, (run_kuzu_cypher_query DBVal.released envK q).resp.body
          = failureTag ++ r)
    ∧ (run_kuzu_cypher_query (DBVal.openedAt p) envK2 q2).resp.statusCode
        = 200 := by
  obtain ⟨c0, e0, t0, d0⟩ := envK
  obtain ⟨c2, e2, t2, d2⟩ := envK2
  simp only at h1 h2 h3
  subst h1 h2 h3
  refine ⟨⟨?_, ?_⟩, ?_⟩ <;>
    simp [run_kuzu_cypher_query, get_kuzu_data, kuzuConnect, mkFailureBody,
      String.append_assoc]

/-- Witness for C6: the conclusion at a concrete released-handle request
followed by a concrete live-handle request. -/
theorem released_handle_returns_500_witness :
    ((run_kuzu_cypher_query DBVal.released envKOk "RETURN 1").resp.statusCode
        = 500
      ∧ ∃ r, (run_kuzu_cypher_query DBVal.released envKOk "RETURN 1").resp.body
          = failureTag ++ r)
    ∧ (run_kuzu_cypher_query (DBVal.openedAt "p") envKOk
        "MATCH (n) RETURN n").resp.statusCode = 200 :=
  released_handle_returns_500 envKOk "RETURN 1" "p" envKOk "MATCH (n) RETURN n"
    "X" rfl rfl rfl

/-- Claim C7: on every remote request the driver events are balanced (as
many acquisitions as releases), every non-empty event trace starts with the
acquisition of the per-request endpoint and ends with the release, and
whenever the query is executed a connectivity verification precedes it. -/
theorem mg_scoped_connection (env : MgEnv) (q : String) :
    ((run_mg_cypher_query env q).events.countP isAcquire
      = (run_mg_cypher_query env q).events.countP isRelease)
    ∧ ((run_mg_cypher_query env q).events ≠ [] →
        (run_mg_cypher_query env q).events.getLast? = some MgEvent.release)
    ∧ ((run_mg_cypher_query env q).events ≠ [] →
        (run_mg_cypher_query env q).events.head?
          = some (MgEvent.acquire (mg_connection_spec env.hostEnv env.portEnv)))
    ∧ (MgEvent.execQuery q ∈ (run_mg_cypher_query env q).events →
        ∃ l1 l2, (run_mg_cypher_query env q).events
            = l1 ++ MgEvent.verifyConn :: l2
          ∧ MgEvent.execQuery q ∈ l2) := by
  obtain ⟨mh, mp, mdr, mv, me, mt, mdu⟩ := env
  cases mdr <;> cases mv <;> cases me <;> cases mt <;>
    refine ⟨?_, ?_, ?_, ?_⟩ <;>
    simp [run_mg_cypher_query, get_mg_data, isAcquire, isRelease] <;>
    exact ⟨[MgEvent.acquire (mg_connection_spec mh mp)],
      [MgEvent.execQuery q, MgEvent.release], rfl, by simp⟩

/-- Witness for C7: the conclusion at a concrete all-successful remote
request. -/
theorem mg_scoped_connection_witness :
    (run_mg_cypher_query envMOk "RETURN 1").events.getLast?
        = some MgEvent.release
    ∧ (run_mg_cypher_query envMOk "RETURN 1").events.head?
        = some (MgEvent.acquire
            (mg_connection_spec envMOk.hostEnv envMOk.portEnv))
    ∧ ∃ l1 l2, (run_mg_cypher_query envMOk "RETURN 1").events
          = l1 ++ MgEvent.verifyConn :: l2
        ∧ MgEvent.execQuery "RETURN 1" ∈ l2 :=
  ⟨(mg_scoped_connection envMOk "RETURN 1").2.1 (by decide),
   (mg_scoped_connection envMOk "RETURN 1").2.2.1 (by decide),
   (mg_scoped_connection envMOk "RETURN 1").2.2.2 (by decide)⟩

/-- Counterexample to C8: a remote request made while the environment holds
`MEMGRAPH_DB_HOST=otherhost` connects to `bolt://otherhost:7687`, which
differs from the endpoint derived from the startup-time configuration
(`localhost`, the default): the handler re-reads the environment on each
request instead of using a value captured at startup. -/
theorem mg_endpoint_reread_cex :
    (run_mg_cypher_query envMOther "RETURN 1").events.head?
      = some (MgEvent.acquire ⟨"bolt://otherhost:7687", ("", "")⟩)
    ∧ mg_host_name (some "otherhost") (some "7687")
      ≠ mg_host_name (some "localhost") (some "7687") := by
  constructor
  · decide
  · decide

/-- Claim C8 as amended: the remote host and port are read from the process
environment on every request, so each request connects to the endpoint
derived from the configuration holding at request time (with defaults
`localhost` and `7687`); configuration changes after startup affect
subsequent requests. -/
theorem mg_endpoint_from_request_env (env : MgEnv) (q : String)
    (h : env.driverAcquire = Except.ok ()) :
    (run_mg_cypher_query env q).events.head?
      = some (MgEvent.acquire (mg_connection_spec env.hostEnv env.portEnv))
    ∧ mg_host_name env.hostEnv env.portEnv
      = "bolt://" ++ env.hostEnv.getD "localhost" ++ ":"
          ++ env.portEnv.getD "7687" := by
  obtain ⟨mh, mp, mdr, mv, me, mt, mdu⟩ := env
  simp only at h
  subst h
  refine ⟨?_, rfl⟩
  cases mv <;> cases me <;> cases mt <;>
    simp [run_mg_cypher_query, get_mg_data]

/-- Witness for the amended C8: the conclusion at the concrete
changed-configuration request. -/
theorem mg_endpoint_from_request_env_witness :
    (run_mg_cypher_query envMOther "RETURN 1").events.head?
      = some (MgEvent.acquire
          (mg_connection_spec envMOther.hostEnv envMOther.portEnv))
    ∧ mg_host_name envMOther.hostEnv envMOther.portEnv
      = "bolt://" ++ envMOther.hostEnv.getD "localhost" ++ ":"
          ++ envMOther.portEnv.getD "7687" :=
  mg_endpoint_from_request_env envMOther "RETURN 1" rfl

/-- Counterexample to C9: a successful remote request performs exactly one
log call, the pre-execution query log; no post-execution log of the
formatted result is made, contrary to the claim that every request logs
its result or failure after execution. -/
theorem mg_success_logs_no_result_cex :
    (run_mg_cypher_query envMOk "RETURN 1").logs
      = [LogEvent.info ("\nMemGraph query: " ++ "RETURN 1")]
    ∧ (run_mg_cypher_query envMOk "RETURN 1").logs.length = 1 := by
  constructor
  · simp [run_mg_cypher_query, get_mg_data, envMOk]
  · simp [run_mg_cypher_query, get_mg_data, envMOk]

/-- Claim C9 as amended: both endpoints log the query text before
execution and log the failure after an execution error; the embedded
endpoint additionally logs the formatted result after a success, while the
remote endpoint makes no post-success log call. None of these log events
appears in the returned payload (the response body is built independently
of the log list). -/
theorem query_logged_result_logged_asymmetric
    (s : DBVal) (envK envKF : KuzuEnv) (envM envMF : MgEnv) (q : String)
    (tblK tblM : String) (eK eM : String)
    (hs : s ≠ DBVal.released)
    (hkc : envK.connect = Except.ok ())
    (hke : envK.exec = Except.ok ())
    (hkt : envK.table = Except.ok tblK)
    (hmd : envM.driverAcquire = Except.ok ())
    (hmv : envM.verify = Except.ok ())
    (hme : envM.exec = Except.ok ())
    (hmt : envM.table = Except.ok tblM)
    (hfc : envKF.connect = Except.ok ())
    (hfe : envKF.exec = Except.error eK)
    (hgd : envMF.driverAcquire = Except.ok ())
    (hgv : envMF.verify = Except.ok ())
    (hge : envMF.exec = Except.error eM) :
    (run_kuzu_cypher_query s envK q).logs
      = [LogEvent.info ("\nQuery: " ++ q),
         LogEvent.info ("Result: "
           ++ ("Elapsed time: "
                ++ pyRepr (pyRound4 (timerLast (kuzu_steps envK.dur)))
                ++ "s" ++ tblK))]
    ∧ (run_mg_cypher_query envM q).logs
      = [LogEvent.info ("\nMemGraph query: " ++ q)]
    ∧ (run_kuzu_cypher_query s envKF q).logs
      = [LogEvent.info ("\nQuery: " ++ q), LogEvent.exc failureTag]
    ∧ (run_mg_cypher_query envMF q).logs
      = [LogEvent.info ("\nMemGraph query: " ++ q),
         LogEvent.exc failureTag] := by
  obtain ⟨kc, ke, kt, kd⟩ := envK
  obtain ⟨mh, mp, mdr, mv, me, mt, mdu⟩ := envM
  obtain ⟨fc, fe, ft, fd⟩ := envKF
  obtain ⟨gh, gp, gdr, gv, ge, gt, gd⟩ := envMF
  simp only at hkc hke hkt hmd hmv hme hmt hfc hfe hgd hgv hge
  subst hkc hke hkt hmd hmv hme hmt hfc hfe hgd hgv hge
  refine ⟨?_, ?_, ?_, ?_⟩
  · cases s
    · simp [run_kuzu_cypher_query, get_kuzu_data, kuzuConnect]
    · simp [run_kuzu_cypher_query, get_kuzu_data, kuzuConnect]
    · exact absurd rfl hs
  · simp [run_mg_cypher_query, get_mg_data]
  · cases s
    · simp [run_kuzu_cypher_query, get_kuzu_data, kuzuConnect]
    · simp [run_kuzu_cypher_query, get_kuzu_data, kuzuConnect]
    · exact absurd rfl hs
  · simp [run_mg_cypher_query, get_mg_data]

/-- Witness for the amended C9: the conclusion at concrete successful and
failing requests on both endpoints. -/
theorem query_logged_result_logged_asymmetric_witness :
    (run_kuzu_cypher_query (DBVal.openedAt "p") envKOk "RETURN 1").logs
      = [LogEvent.info ("\nQuery: " ++ "RETURN 1"),
         LogEvent.info ("Result: "
           ++ ("Elapsed time: "
                ++ pyRepr (pyRound4 (timerLast (kuzu_steps envKOk.dur)))
                ++ "s" ++ "X"))]
    ∧ (run_mg_cypher_query envMOk "RETURN 1").logs
      = [LogEvent.info ("\nMemGraph query: " ++ "RETURN 1")]
    ∧ (run_kuzu_cypher_query (DBVal.openedAt "p") envKFail "RETURN 1").logs
      = [LogEvent.info ("\nQuery: " ++ "RETURN 1"), LogEvent.exc failureTag]
    ∧ (run_mg_cypher_query envMFail "RETURN 1").logs
      = [LogEvent.info ("\nMemGraph query: " ++ "RETURN 1"),
         LogEvent.exc failureTag] :=
  query_logged_result_logged_asymmetric (DBVal.openedAt "p") envKOk envKFail
    envMOk envMFail "RETURN 1" "X" "Y" "Parser exception" "Parser exception"
    (by decide) rfl rfl rfl rfl rfl rfl rfl rfl rfl rfl rfl rfl

/-- Claim C10: the connection specification built for any environment
carries the anonymous credential pair `("", "")`, and every driver
acquisition a remote request performs uses it; no configuration value
reaches the auth component. -/
theorem mg_auth_always_anonymous (env : MgEnv) (q : String)
    (h p : Option String) :
    (mg_connection_spec h p).auth = ("", "")
    ∧ (∀ spec, MgEvent.acquire spec ∈ (run_mg_cypher_query env q).events →
        spec = mg_connection_spec env.hostEnv env.portEnv
          ∧ spec.auth = ("", "")) := by
  obtain ⟨mh, mp, mdr, mv, me, mt, mdu⟩ := env
  refine ⟨rfl, ?_⟩
  intro spec hmem
  cases mdr <;> cases mv <;> cases me <;> cases mt <;>
    simp [run_mg_cypher_query, get_mg_data] at hmem <;>
    simp [hmem, mg_connection_spec]

/-- Witness for C10: the conclusion at the concrete successful remote
request's actual acquisition event. -/
theorem mg_auth_always_anonymous_witness :
    mg_connection_spec envMOk.hostEnv envMOk.portEnv
        = mg_connection_spec envMOk.hostEnv envMOk.portEnv
      ∧ (mg_connection_spec envMOk.hostEnv envMOk.portEnv).auth = ("", "") :=
  (mg_auth_always_anonymous envMOk "RETURN 1" none none).2
    (mg_connection_spec envMOk.hostEnv envMOk.portEnv) (by decide)

end GraphDbEval
